import Mathlib

/-!
Verification of the blogicum blog application's visibility and authorization
rules, shallowly embedded from `blog/models.py`, `blog/views.py`,
`blog/mixins.py` and `blog/urls.py`. Entities are records with numeric
primary keys; timestamps are integers; the relational store is a record of
entity lists; each Django view becomes a pure function from the store, the
current time and the requesting viewer to a result value.
-/

namespace Blogicum

/-- A row of the auth user table. Only the fields the blog code reads are
kept: the primary key and the unique `username`. -/
structure User where
  id : Nat
  username : String
  deriving DecidableEq

/-- `Category(PublishedModel)` from `blog/models.py`: title, description,
unique slug, plus the shared `is_published` / `created_at` fields. -/
structure Category where
  id : Nat
  title : String
  description : String
  slug : String
  is_published : Bool
  created_at : Int
  deriving DecidableEq

/-- `Location(PublishedModel)` from `blog/models.py`. -/
structure Location where
  id : Nat
  name : String
  is_published : Bool
  created_at : Int
  deriving DecidableEq

/-- `Post(PublishedModel)` from `blog/models.py`. `author` is a required
foreign key (CASCADE); `location` and `category` are nullable foreign keys
with `on_delete=SET_NULL`, held as `Option` of the referenced primary key. -/
structure Post where
  id : Nat
  title : String
  text : String
  pub_date : Int
  author : Nat
  location : Option Nat
  category : Option Nat
  is_published : Bool
  created_at : Int
  deriving DecidableEq

/-- `Comment` from `blog/models.py`: required `post` and `author` foreign
keys, both `on_delete=CASCADE`. -/
structure Comment where
  id : Nat
  text : String
  created_at : Int
  post : Nat
  author : Nat
  deriving DecidableEq

/-- The actor behind `request.user`: either Django's `AnonymousUser` or an
authenticated `User` row. -/
inductive Viewer where
  | anonymous
  | user (u : User)
  deriving DecidableEq

/-- The relational store: one list of rows per table. -/
structure DB where
  users : List User
  categories : List Category
  locations : List Location
  posts : List Post
  comments : List Comment
  deriving DecidableEq

/-- Primary-key lookup on the category table. -/
def findCategoryById (db : DB) (cid : Nat) : Option Category :=
  db.categories.find? (fun c => c.id == cid)

/-- Primary-key lookup on the post table (`Post.objects`, `pk=post_id`). -/
def findPostById (db : DB) (pid : Nat) : Option Post :=
  db.posts.find? (fun p => p.id == pid)

/-- Primary-key lookup on the comment table (`pk_url_kwarg = 'comment_id'`). -/
def findCommentById (db : DB) (cid : Nat) : Option Comment :=
  db.comments.find? (fun c => c.id == cid)

/-- `get_object_or_404(User, username=...)` used by `ProfileDetailView`. -/
def findUserByUsername (db : DB) (username : String) : Option User :=
  db.users.find? (fun u => u.username == username)

/-- `request.user.is_authenticated`: true exactly for a logged-in `User`. -/
def isAuthenticated : Viewer → Bool
  | .anonymous => false
  | .user _ => true

/-- The comparison `entity.author == request.user`. Django model equality
compares primary keys of same-class instances, and `AnonymousUser` never
equals a `User` row, so an anonymous viewer never matches an author. -/
def authorEq : Viewer → Nat → Bool
  | .anonymous, _ => false
  | .user u, a => u.id == a

/-- The filter of `PublishedPostsMixin.get_queryset` (`blog/views.py`,
lines 40–47): `pub_date__lte=timezone.now(), is_published=True,
category__is_published=True`. The lookup `category__is_published=True`
traverses the nullable `category` foreign key with a relational join, so a
row whose `category` is NULL never matches, and neither does a dangling
reference. -/
def publishedFilter (db : DB) (now : Int) (p : Post) : Bool :=
  decide (p.pub_date ≤ now) && p.is_published &&
    (match p.category with
     | none => false
     | some cid =>
       match findCategoryById db cid with
       | none => false
       | some c => c.is_published)

/-- `order_by('-pub_date')` / the `Post.Meta.ordering = ('-pub_date',)`
default: insert one post into a list sorted by descending `pub_date`. -/
def insertByPubDateDesc (p : Post) : List Post → List Post
  | [] => [p]
  | q :: rest =>
    if q.pub_date ≤ p.pub_date then p :: q :: rest
    else q :: insertByPubDateDesc p rest

/-- Sort a list of posts by descending `pub_date` (insertion sort). -/
def orderByPubDateDesc (l : List Post) : List Post :=
  l.foldr insertByPubDateDesc []

/-- The grouped count behind `annotate(comment_count=Count('comments'))`:
the number of comment rows whose `post` foreign key is `pid`. -/
def commentCount (db : DB) (pid : Nat) : Nat :=
  (db.comments.filter (fun c => c.post == pid)).length

/-- `annotate(comment_count=Count('comments'))`: pair each post row with its
comment count. -/
def withCommentCount (db : DB) (l : List Post) : List (Post × Nat) :=
  l.map (fun p => (p, commentCount db p.id))

/-- `HomePageListView.get_queryset`: the published filter of
`PublishedPostsMixin`, the `comment_count` aggregate, and
`order_by('-pub_date')`. -/
def homePageQueryset (db : DB) (now : Int) : List (Post × Nat) :=
  withCommentCount db (orderByPubDateDesc (db.posts.filter (publishedFilter db now)))

/-- `CategoryPostsView.get_queryset`: `get_object_or_404(Category,
slug=category_slug, is_published=True)` (`none` models the Http404), then
the `PublishedPostsMixin` filter restricted to that category, under the
model's default `-pub_date` ordering. -/
def categoryPostsQueryset (db : DB) (now : Int) (slug : String) : Option (List Post) :=
  match db.categories.find? (fun c => c.slug == slug && c.is_published) with
  | none => none
  | some cat =>
    some (orderByPubDateDesc
      ((db.posts.filter (publishedFilter db now)).filter
        (fun p => p.category == some cat.id)))

/-- `ProfileDetailView.get_queryset` (`blog/views.py`, lines 281–285): the
user by username or Http404, then `Post.objects.filter(author=user)` with the
`comment_count` aggregate and `order_by('-pub_date')`. No publication filter
is applied here. -/
def profileQueryset (db : DB) (username : String) : Option (List (Post × Nat)) :=
  match findUserByUsername db username with
  | none => none
  | some u =>
    some (withCommentCount db
      (orderByPubDateDesc (db.posts.filter (fun p => p.author == u.id))))

/-- `ProfileDetailView` as reached by a request: the requesting viewer is
part of the request, but `get_queryset` never consults it. -/
def profileView (db : DB) (_viewer : Viewer) (username : String) :
    Option (List (Post × Nat)) :=
  profileQueryset db username

/-- Possible responses of the post detail endpoint. `forbidden` is the HTTP
403 outcome, present in the response space so that we can state that the
view never produces it. -/
inductive DetailOutcome where
  | ok (p : Post)
  | notFound
  | forbidden
  deriving DecidableEq

/-- `PostDetailView.get_object` (`blog/views.py`, lines 97–110): load the
post by primary key or Http404; if the viewer is not the author, repeat the
lookup filtered by `is_published=True, category__is_published=True,
pub_date__lte=timezone.now()` (the same three conditions as
`publishedFilter`), turning a hidden post into the same Http404. -/
def postDetailGetObject (db : DB) (now : Int) (viewer : Viewer) (postId : Nat) :
    DetailOutcome :=
  match findPostById db postId with
  | none => .notFound
  | some post =>
    if authorEq viewer post.author then .ok post
    else if publishedFilter db now post then .ok post
    else .notFound

/-- The post predicate the detail view effectively enforces: author access
or the published filter. -/
def isVisibleInCode (db : DB) (now : Int) (viewer : Viewer) (p : Post) : Bool :=
  authorEq viewer p.author || publishedFilter db now p

/-- Possible responses of a post mutation request before the view body runs.
`redirectLogin` is the default `AccessMixin` behavior (redirect to
`settings.LOGIN_URL`), present so we can state when it is and is not
produced. -/
inductive MutationOutcome where
  | proceed
  | redirectPostDetail (postId : Nat)
  | redirectLogin
  deriving DecidableEq

/-- Dispatch of `PostUpdateView` / `PostDeleteView`
(`LoginRequiredMixin, OnlyAuthorMixin, ...`): `LoginRequiredMixin.dispatch`
checks authentication first, then `UserPassesTestMixin` runs
`OnlyAuthorMixin.test_func` (`object.author == request.user`). In both
failure cases `self.handle_no_permission()` resolves through the method
resolution order to the `OnlyAuthorMixin` override, which is
`redirect('blog:post_detail', post_id=self.kwargs['post_id'])`; the default
login redirect is never reached. -/
def mutationDispatch (viewer : Viewer) (entityAuthor : Nat) (routePostId : Nat) :
    MutationOutcome :=
  if isAuthenticated viewer then
    if authorEq viewer entityAuthor then .proceed
    else .redirectPostDetail routePostId
  else .redirectPostDetail routePostId

/-- Possible responses of a comment mutation request before the view body
runs. -/
inductive CommentMutationOutcome where
  | proceed (c : Comment)
  | redirectPostDetail (postId : Nat)
  | redirectLogin
  | notFound
  deriving DecidableEq

/-- Dispatch of `CommentUpdateView` / `CommentDeleteView`: authentication
check, then `get_object` by `comment_id` alone (Http404 if absent; the
route's `post_id` is never compared with the comment's `post`), then the
author test; any denial redirects to `blog:post_detail` with the route's
`post_id`. -/
def commentMutationDispatch (db : DB) (viewer : Viewer)
    (routePostId commentId : Nat) : CommentMutationOutcome :=
  if isAuthenticated viewer then
    match findCommentById db commentId with
    | none => .notFound
    | some c =>
      if authorEq viewer c.author then .proceed c
      else .redirectPostDetail routePostId
  else .redirectPostDetail routePostId

/-- Redirect targets produced by the create/update/delete views via
`reverse` / `reverse_lazy`. -/
inductive Redirect where
  | postDetail (postId : Nat)
  | profile (username : String)
  | home
  | login
  deriving DecidableEq

/-- The fields bound by `PostForm` (`blog/forms.py` excludes `author`). -/
structure PostFormData where
  title : String
  text : String
  pub_date : Int
  location : Option Nat
  category : Option Nat
  is_published : Bool
  deriving DecidableEq

/-- `PostCreateView`: `form_valid` sets `form.instance.author =
request.user`, the row is persisted, and `get_success_url` reverses
`blog:profile` with the viewer's username. `newId` is the store-assigned
primary key and `now` the `auto_now_add` creation time. -/
def postCreate (db : DB) (viewer : User) (f : PostFormData) (newId : Nat)
    (now : Int) : DB × Redirect :=
  let newPost : Post :=
    { id := newId, title := f.title, text := f.text, pub_date := f.pub_date,
      author := viewer.id, location := f.location, category := f.category,
      is_published := f.is_published, created_at := now }
  ({ db with posts := db.posts ++ [newPost] }, .profile viewer.username)

/-- `CommentCreateView`: `dispatch` runs `get_object_or_404(Post,
pk=post_id)` (`none` models the Http404), `form_valid` sets
`form.instance.author = request.user` and `form.instance.post =
self.current_post`, and `get_success_url` reverses `blog:post_detail` with
the current post's primary key. -/
def commentCreate (db : DB) (viewer : User) (routePostId : Nat) (text : String)
    (newId : Nat) (now : Int) : Option (DB × Redirect) :=
  match findPostById db routePostId with
  | none => none
  | some post =>
    let newComment : Comment :=
      { id := newId, text := text, created_at := now, post := post.id,
        author := viewer.id }
    some ({ db with comments := db.comments ++ [newComment] },
      .postDetail post.id)

/-- Deleting a post row: the `Comment.post` foreign key has
`on_delete=CASCADE`, so every comment referencing the post is deleted with
it. -/
def deletePost (db : DB) (postId : Nat) : DB :=
  { db with posts := db.posts.filter (fun p => p.id != postId),
            comments := db.comments.filter (fun c => c.post != postId) }

/-- `on_delete=SET_NULL` on `Post.category`: clear the reference when it
points at the deleted category, leave every other field alone. -/
def nullifyCategory (catId : Nat) (p : Post) : Post :=
  if p.category == some catId then { p with category := none } else p

/-- Deleting a category row: referencing posts survive with the reference
nulled. -/
def deleteCategory (db : DB) (catId : Nat) : DB :=
  { db with categories := db.categories.filter (fun c => c.id != catId),
            posts := db.posts.map (nullifyCategory catId) }

/-- `on_delete=SET_NULL` on `Post.location`. -/
def nullifyLocation (locId : Nat) (p : Post) : Post :=
  if p.location == some locId then { p with location := none } else p

/-- Deleting a location row: referencing posts survive with the reference
nulled. -/
def deleteLocation (db : DB) (locId : Nat) : DB :=
  { db with locations := db.locations.filter (fun l => l.id != locId),
            posts := db.posts.map (nullifyLocation locId) }

/-- Django's `Paginator.num_pages` with `orphans = 0` and
`allow_empty_first_page = True`: `ceil(max(1, count) / pageSize)`. -/
def numPages (count pageSize : Nat) : Nat :=
  max 1 ((count + pageSize - 1) / pageSize)

/-- The framework collaborator configured by `paginate_by = 10`:
`MultipleObjectMixin.paginate_queryset` calls `Paginator.page`, whose
`validate_number` raises `EmptyPage` — surfaced as Http404 (`none`) — when
the page number is below 1 or above `num_pages`; a valid page is the
corresponding slice of the object list. -/
def paginateQueryset {α : Type} (l : List α) (pageSize page : Nat) :
    Option (List α) :=
  if 1 ≤ page ∧ page ≤ numPages l.length pageSize then
    some ((l.drop (pageSize * (page - 1))).take pageSize)
  else none

/-- `HomePageListView` with `paginate_by = 10`, at a given page number. -/
def homePageView (db : DB) (now : Int) (page : Nat) :
    Option (List (Post × Nat)) :=
  paginateQueryset (homePageQueryset db now) 10 page

/-- `CategoryPostsView` with `paginate_by = 10`, at a given page number. -/
def categoryPostsView (db : DB) (now : Int) (slug : String) (page : Nat) :
    Option (List Post) :=
  (categoryPostsQueryset db now slug).bind (fun l => paginateQueryset l 10 page)

/-- `ProfileDetailView` with `paginate_by = 10`, at a given page number. -/
def profileViewPaged (db : DB) (viewer : Viewer) (username : String)
    (page : Nat) : Option (List (Post × Nat)) :=
  (profileView db viewer username).bind (fun l => paginateQueryset l 10 page)

/-! ### Helper lemmas -/

theorem mem_insertByPubDateDesc {q p : Post} {l : List Post} :
    q ∈ insertByPubDateDesc p l ↔ q = p ∨ q ∈ l := by
  induction l with
  | nil => simp [insertByPubDateDesc]
  | cons x xs ih =>
    simp only [insertByPubDateDesc]
    split
    · simp
    · simp only [List.mem_cons, ih]
      tauto

theorem mem_orderByPubDateDesc {q : Post} {l : List Post} :
    q ∈ orderByPubDateDesc l ↔ q ∈ l := by
  induction l with
  | nil => simp [orderByPubDateDesc]
  | cons x xs ih =>
    show q ∈ insertByPubDateDesc x (orderByPubDateDesc xs) ↔ _
    rw [mem_insertByPubDateDesc]
    simp [ih]

theorem mem_withCommentCount {db : DB} {p : Post} {n : Nat} {l : List Post} :
    (p, n) ∈ withCommentCount db l ↔ p ∈ l ∧ n = commentCount db p.id := by
  simp only [withCommentCount, List.mem_map, Prod.mk.injEq]
  constructor
  · rintro ⟨a, ha, rfl, rfl⟩
    exact ⟨ha, rfl⟩
  · rintro ⟨hp, rfl⟩
    exact ⟨p, hp, rfl, rfl⟩

theorem paginateQueryset_length {α : Type} (l : List α) (page : Nat)
    (chunk : List α) (h : paginateQueryset l 10 page = some chunk) :
    chunk.length = min 10 (l.length - 10 * (page - 1)) := by
  unfold paginateQueryset at h
  split at h
  · cases h
    simp
  · cases h

theorem paginateQueryset_oob {α : Type} (l : List α) (page : Nat)
    (h : numPages l.length 10 < page) :
    paginateQueryset l 10 page = none := by
  unfold paginateQueryset
  split
  · rename_i hc
    obtain ⟨h1, h2⟩ := hc
    omega
  · rfl

/-! ### Concrete fixtures -/

/-- A user row, the profile owner / author in the scenarios below. -/
def userW : User := ⟨1, "w"⟩

/-- A second user row, a viewer distinct from `userW`. -/
def userV : User := ⟨2, "v"⟩

/-- A published category row. -/
def catPub : Category := ⟨1, "c", "d", "c-slug", true, 0⟩

/-- An unpublished post by `userW`, with a published category and a past
`pub_date`. -/
def unpublishedPost : Post :=
  { id := 10, title := "t", text := "x", pub_date := 0, author := 1,
    location := none, category := some 1, is_published := false,
    created_at := 0 }

/-- Store holding `userW` and their single unpublished post. -/
def dbProfile : DB := ⟨[userW, userV], [catPub], [], [unpublishedPost], []⟩

/-- A published, past-dated post whose `category` reference is NULL. -/
def nullCategoryPost : Post :=
  { id := 20, title := "t", text := "x", pub_date := 0, author := 1,
    location := none, category := none, is_published := true,
    created_at := 0 }

/-- Store holding the null-category post. -/
def dbNullCategory : DB := ⟨[userW, userV], [catPub], [], [nullCategoryPost], []⟩

/-- An unpublished, future-dated, category-less post by `userW`. -/
def futureUnpublishedPost : Post :=
  { id := 30, title := "t", text := "x", pub_date := 100, author := 1,
    location := none, category := none, is_published := false,
    created_at := 0 }

/-- Store for the author-detail scenario. -/
def dbAuthorDetail : DB := ⟨[userW], [], [], [futureUnpublishedPost], []⟩

/-- A comment by `userW` whose parent post has primary key 3. -/
def strayComment : Comment := ⟨40, "hi", 0, 3, 1⟩

/-- Store holding only `strayComment`; the comment mutation routes below
name it under the unrelated post id 7. -/
def dbStray : DB := ⟨[userW, userV], [], [], [], [strayComment]⟩

/-- Sample submitted post form fields. -/
def postFormSample : PostFormData :=
  { title := "t", text := "x", pub_date := 0, location := none,
    category := some 1, is_published := true }

/-- Twenty-five published posts in `catPub` by `userW`. -/
def manyPosts : List Post :=
  (List.range 25).map (fun i =>
    { id := i, title := "t", text := "x", pub_date := (i : Int), author := 1,
      location := none, category := some 1, is_published := true,
      created_at := 0 })

/-- Store with 25 posts that all pass the published filter at time 100. -/
def dbPaging : DB := ⟨[userW], [catPub], [], manyPosts, []⟩

/-! ### Claims -/

/-- Claim C1, counterexample: `userV` (not the owner `userW`) requests the
profile listing of `userW` and receives the owner's unpublished post, which
fails the visibility filter — the listing is not restricted to posts passing
the full visibility filter. -/
theorem C1_cex :
    profileView dbProfile (Viewer.user userV) "w" = some [(unpublishedPost, 0)] ∧
    unpublishedPost.is_published = false ∧
    publishedFilter dbProfile 5 unpublishedPost = false ∧
    userV ≠ userW := by
  refine ⟨rfl, rfl, rfl, ?_⟩
  decide

/-- Claim C1 (amended): the profile listing returns all of the profile
owner's posts — with their comment counts — for every viewer, owner or not;
no visibility filter is applied. -/
theorem C1_profile_lists_all_author_posts (db : DB) (viewer : Viewer)
    (username : String) (u : User)
    (hu : findUserByUsername db username = some u) :
    ∃ l, profileView db viewer username = some l ∧
      ∀ p n, ((p, n) ∈ l ↔ p ∈ db.posts ∧ p.author = u.id ∧
        n = commentCount db p.id) := by
  refine ⟨withCommentCount db
    (orderByPubDateDesc (db.posts.filter (fun p => p.author == u.id))), ?_, ?_⟩
  · simp [profileView, profileQueryset, hu]
  intro p n
  rw [mem_withCommentCount, mem_orderByPubDateDesc, List.mem_filter]
  simp only [beq_iff_eq]
  tauto

/-- Claim C1 witness: in the concrete store, the non-owner viewer's profile
listing contains the owner's unpublished post. -/
theorem C1_profile_lists_all_author_posts_witness :
    (unpublishedPost, 0) ∈
      ((profileView dbProfile (Viewer.user userV) "w").getD []) := by
  obtain ⟨l, hl, hiff⟩ :=
    C1_profile_lists_all_author_posts dbProfile (Viewer.user userV) "w" userW rfl
  rw [hl]
  simp only [Option.getD_some]
  exact (hiff unpublishedPost 0).mpr ⟨by decide, rfl, rfl⟩

/-- Claim C2, counterexample: a published, past-dated post whose category
reference is NULL fails the published filter, is absent from the home
listing, and its detail request by a non-author yields "not found" — the
NULL category is not treated as satisfying the category conjunct. -/
theorem C2_cex :
    nullCategoryPost.category = none ∧
    nullCategoryPost.is_published = true ∧
    nullCategoryPost.pub_date ≤ (5 : Int) ∧
    publishedFilter dbNullCategory 5 nullCategoryPost = false ∧
    homePageQueryset dbNullCategory 5 = [] ∧
    postDetailGetObject dbNullCategory 5 (Viewer.user userV) 20 =
      DetailOutcome.notFound := by
  decide

/-- Claim C2 (amended): a post whose category reference is NULL never passes
the `category__is_published=True` lookup: it fails the published filter, is
excluded from the public list views, and its detail view answers "not
found" to every non-author viewer. -/
theorem C2_null_category_excluded (db : DB) (now : Int) (p : Post)
    (viewer : Viewer) (hcat : p.category = none) :
    publishedFilter db now p = false ∧
    (∀ n, (p, n) ∉ homePageQueryset db now) ∧
    (findPostById db p.id = some p → authorEq viewer p.author = false →
      postDetailGetObject db now viewer p.id = DetailOutcome.notFound) := by
  have hf : publishedFilter db now p = false := by
    simp [publishedFilter, hcat]
  refine ⟨hf, ?_, ?_⟩
  · intro n hm
    rw [homePageQueryset, mem_withCommentCount, mem_orderByPubDateDesc,
      List.mem_filter] at hm
    rw [hf] at hm
    simp at hm
  · intro hfind hauthor
    simp [postDetailGetObject, hfind, hauthor, hf]

/-- Claim C2 witness: the amended claim applied to the concrete
null-category post and the non-author viewer `userV`. -/
theorem C2_null_category_excluded_witness :
    publishedFilter dbNullCategory 5 nullCategoryPost = false :=
  (C2_null_category_excluded dbNullCategory 5 nullCategoryPost
    (Viewer.user userV) rfl).1

/-- Claim C3: the detail view returns the post to its author whatever
`is_published`, `pub_date` and the category state are: `get_object` checks
the publication filter only when the viewer is not the author. -/
theorem C3_author_sees_own_post (db : DB) (now : Int) (pid : Nat) (p : Post)
    (v : Viewer) (hfind : findPostById db pid = some p)
    (hauthor : authorEq v p.author = true) :
    postDetailGetObject db now v pid = DetailOutcome.ok p := by
  simp [postDetailGetObject, hfind, hauthor]

/-- Claim C3 witness: the author retrieves their own unpublished,
future-dated, category-less post. -/
theorem C3_author_sees_own_post_witness :
    postDetailGetObject dbAuthorDetail 0 (Viewer.user userW) 30 =
      DetailOutcome.ok futureUnpublishedPost :=
  C3_author_sees_own_post dbAuthorDetail 0 30 futureUnpublishedPost
    (Viewer.user userW) rfl rfl

/-- Claim C4: the guard of the post and comment mutation views grants the
operation exactly when the viewer is authenticated and is the entity's
author; an anonymous viewer and an authenticated non-author are always
denied, with no other basis for access. -/
theorem C4_guard_grants_iff_authenticated_author (v : Viewer) (a r cid : Nat)
    (db : DB) (c : Comment) (hfind : findCommentById db cid = some c) :
    (mutationDispatch v a r = MutationOutcome.proceed ↔
      (isAuthenticated v = true ∧ authorEq v a = true)) ∧
    (commentMutationDispatch db v r cid = CommentMutationOutcome.proceed c ↔
      (isAuthenticated v = true ∧ authorEq v c.author = true)) := by
  constructor
  · cases v with
    | anonymous => simp [mutationDispatch, isAuthenticated, authorEq]
    | user u =>
      by_cases h : (u.id == a) = true <;>
        simp [mutationDispatch, isAuthenticated, authorEq, h]
  · cases v with
    | anonymous => simp [commentMutationDispatch, isAuthenticated, authorEq]
    | user u =>
      by_cases h : (u.id == c.author) = true <;>
        simp [commentMutationDispatch, isAuthenticated, authorEq, hfind, h]

/-- Claim C4 witness: the author of `strayComment` may proceed with a post
mutation on their own post (author id 1) and with the comment mutation. -/
theorem C4_guard_grants_iff_authenticated_author_witness :
    mutationDispatch (Viewer.user userW) 1 7 = MutationOutcome.proceed :=
  ((C4_guard_grants_iff_authenticated_author (Viewer.user userW) 1 7 40
    dbStray strayComment rfl).1).mpr ⟨rfl, rfl⟩

/-- Claim C5, counterexample: an anonymous edit attempt on a post under
route post id 7 is redirected to that post's detail page, not to the login
flow. -/
theorem C5_cex :
    mutationDispatch Viewer.anonymous 1 7 = MutationOutcome.redirectPostDetail 7 ∧
    mutationDispatch Viewer.anonymous 1 7 ≠ MutationOutcome.redirectLogin := by
  decide

/-- Claim C5 (amended): every edit or delete attempt on a post or comment by
an unauthenticated viewer is redirected to the post detail page of the
route's `post_id` — the `OnlyAuthorMixin.handle_no_permission` override —
never to the login flow. -/
theorem C5_unauthenticated_redirects_to_post_detail (db : DB)
    (a r cid : Nat) :
    mutationDispatch Viewer.anonymous a r =
      MutationOutcome.redirectPostDetail r ∧
    commentMutationDispatch db Viewer.anonymous r cid =
      CommentMutationOutcome.redirectPostDetail r := by
  constructor
  · rfl
  · rfl

/-- Claim C6: the post detail endpoint never answers "forbidden", and it
answers "not found" exactly when no stored post with the requested id is
visible to the viewer — a hidden post and a nonexistent one are
indistinguishable. -/
theorem C6_hidden_indistinguishable_from_missing (db : DB) (now : Int)
    (v : Viewer) (pid : Nat) :
    postDetailGetObject db now v pid ≠ DetailOutcome.forbidden ∧
    (postDetailGetObject db now v pid = DetailOutcome.notFound ↔
      ∀ p, findPostById db pid = some p →
        isVisibleInCode db now v p = false) := by
  cases hfind : findPostById db pid with
  | none =>
    constructor
    · simp [postDetailGetObject, hfind]
    · simp [postDetailGetObject, hfind]
  | some p =>
    by_cases ha : authorEq v p.author = true
    · constructor
      · simp [postDetailGetObject, hfind, ha]
      · simp [postDetailGetObject, hfind, ha, isVisibleInCode]
    · rw [Bool.not_eq_true] at ha
      by_cases hp : publishedFilter db now p = true
      · constructor
        · simp [postDetailGetObject, hfind, ha, hp]
        · simp [postDetailGetObject, hfind, ha, hp, isVisibleInCode]
      · rw [Bool.not_eq_true] at hp
        constructor
        · simp [postDetailGetObject, hfind, ha, hp]
        · simp [postDetailGetObject, hfind, ha, hp, isVisibleInCode]

/-- Claim C6 witness: an anonymous request for the stored-but-unpublished
post 10 is not answered with "forbidden" (it is in fact "not found"). -/
theorem C6_hidden_indistinguishable_from_missing_witness :
    postDetailGetObject dbProfile 5 Viewer.anonymous 10 ≠
      DetailOutcome.forbidden :=
  (C6_hidden_indistinguishable_from_missing dbProfile 5 Viewer.anonymous 10).1

/-- Claim C7, counterexample: a successful post create by `userW` redirects
to the author's profile listing, not to the detail view of the new post
(primary key 42). -/
theorem C7_cex :
    (postCreate dbNullCategory userW postFormSample 42 0).2 =
      Redirect.profile "w" ∧
    (postCreate dbNullCategory userW postFormSample 42 0).2 ≠
      Redirect.postDetail 42 := by
  decide

/-- Claim C7 (amended): a successful create persists the entity with
`author` set to the viewer — and, for a comment, `post` set to the post from
the route — but only the comment create redirects to the owning post's
detail view; the post create redirects to the author's profile listing. -/
theorem C7_create_author_and_redirect (db : DB) (u : User) (f : PostFormData)
    (t : String) (pid newId : Nat) (now : Int) (post : Post)
    (hpost : findPostById db pid = some post) :
    ((postCreate db u f newId now).2 = Redirect.profile u.username ∧
      ∃ p, p ∈ (postCreate db u f newId now).1.posts ∧ p.id = newId ∧
        p.author = u.id) ∧
    (∃ db2, commentCreate db u pid t newId now =
        some (db2, Redirect.postDetail post.id) ∧
      ∃ c, c ∈ db2.comments ∧ c.id = newId ∧ c.author = u.id ∧
        c.post = post.id ∧ c.text = t) := by
  constructor
  · refine ⟨rfl, ?_⟩
    refine ⟨⟨newId, f.title, f.text, f.pub_date, u.id, f.location,
      f.category, f.is_published, now⟩, ?_, rfl, rfl⟩
    simp [postCreate]
  · have hc : commentCreate db u pid t newId now =
        some ({ db with comments := db.comments ++
            [⟨newId, t, now, post.id, u.id⟩] },
          Redirect.postDetail post.id) := by
      simp [commentCreate, hpost]
    refine ⟨_, hc, ?_⟩
    refine ⟨⟨newId, t, now, post.id, u.id⟩, ?_, rfl, rfl, rfl, rfl⟩
    simp

/-- Claim C7 witness: the amended claim applied to a concrete store holding
post 20, with `userW` creating a post and a comment. -/
theorem C7_create_author_and_redirect_witness :
    (postCreate dbNullCategory userW postFormSample 42 0).2 =
      Redirect.profile userW.username :=
  ((C7_create_author_and_redirect dbNullCategory userW postFormSample "hello"
    20 42 0 nullCategoryPost rfl).1).1

/-- Claim C8: deleting a post cascades to exactly the comments referencing
it, while deleting a category or location keeps every post, with only the
corresponding reference nulled and all other fields unchanged. -/
theorem C8_delete_cascade_and_nullify (db : DB) (postId catId locId : Nat) :
    (∀ c, c ∈ (deletePost db postId).comments → c.post ≠ postId) ∧
    (∀ c, c ∈ db.comments → c.post ≠ postId →
      c ∈ (deletePost db postId).comments) ∧
    (∀ p, p ∈ db.posts → ∃ q, q ∈ (deleteCategory db catId).posts ∧
      q.id = p.id ∧ q.title = p.title ∧ q.text = p.text ∧
      q.pub_date = p.pub_date ∧ q.author = p.author ∧
      q.location = p.location ∧ q.is_published = p.is_published ∧
      q.created_at = p.created_at ∧
      q.category = (if p.category = some catId then none else p.category)) ∧
    (∀ p, p ∈ db.posts → ∃ q, q ∈ (deleteLocation db locId).posts ∧
      q.id = p.id ∧ q.title = p.title ∧ q.text = p.text ∧
      q.pub_date = p.pub_date ∧ q.author = p.author ∧
      q.category = p.category ∧ q.is_published = p.is_published ∧
      q.created_at = p.created_at ∧
      q.location = (if p.location = some locId then none else p.location)) := by
  refine ⟨?_, ?_, ?_, ?_⟩
  · intro c hc
    have h := (List.mem_filter.mp hc).2
    simpa using h
  · intro c hc hne
    exact List.mem_filter.mpr ⟨hc, by simpa using hne⟩
  · intro p hp
    refine ⟨nullifyCategory catId p, List.mem_map_of_mem _ hp, ?_⟩
    by_cases h : p.category = some catId <;>
      simp [nullifyCategory, h]
  · intro p hp
    refine ⟨nullifyLocation locId p, List.mem_map_of_mem _ hp, ?_⟩
    by_cases h : p.location = some locId <;>
      simp [nullifyLocation, h]

/-- Claim C8 witness: deleting post 10 from `dbStray` leaves `strayComment`
(whose parent is post 3) in place. -/
theorem C8_delete_cascade_and_nullify_witness :
    strayComment ∈ (deletePost dbStray 10).comments :=
  (C8_delete_cascade_and_nullify dbStray 10 1 1).2.1 strayComment
    (by decide) (by decide)

/-- Claim C9, counterexample: with 25 qualifying posts the home listing has
3 valid pages (10, 10, 5 items); requesting page 4 yields "not found"
(`none`), not the last valid page. -/
theorem C9_cex :
    (homePageQueryset dbPaging 100).length = 25 ∧
    (homePageView dbPaging 100 3).map List.length = some 5 ∧
    homePageView dbPaging 100 4 = none := by
  refine ⟨rfl, rfl, rfl⟩

/-- Claim C9 (amended): every list view pages by 10 — a returned page is the
corresponding 10-item slice of the query, the last page possibly shorter —
and a page number outside `1..num_pages` produces the Http404 "not found"
outcome (`none`), not the last valid page. -/
theorem C9_pagination (db : DB) (now : Int) (viewer : Viewer)
    (username slug : String) (page : Nat) :
    (∀ chunk, homePageView db now page = some chunk →
      chunk.length =
        min 10 ((homePageQueryset db now).length - 10 * (page - 1))) ∧
    (numPages (homePageQueryset db now).length 10 < page →
      homePageView db now page = none) ∧
    (∀ ql chunk, categoryPostsQueryset db now slug = some ql →
      categoryPostsView db now slug page = some chunk →
      chunk.length = min 10 (ql.length - 10 * (page - 1))) ∧
    (∀ ql, categoryPostsQueryset db now slug = some ql →
      numPages ql.length 10 < page →
      categoryPostsView db now slug page = none) ∧
    (∀ ql chunk, profileView db viewer username = some ql →
      profileViewPaged db viewer username page = some chunk →
      chunk.length = min 10 (ql.length - 10 * (page - 1))) ∧
    (∀ ql, profileView db viewer username = some ql →
      numPages ql.length 10 < page →
      profileViewPaged db viewer username page = none) := by
  refine ⟨?_, ?_, ?_, ?_, ?_, ?_⟩
  · intro chunk h
    simp only [homePageView] at h
    exact paginateQueryset_length _ _ _ h
  · intro h
    simp only [homePageView]
    exact paginateQueryset_oob _ _ h
  · intro ql chunk hq h
    simp only [categoryPostsView, hq, Option.some_bind] at h
    exact paginateQueryset_length _ _ _ h
  · intro ql hq h
    simp only [categoryPostsView, hq, Option.some_bind]
    exact paginateQueryset_oob _ _ h
  · intro ql chunk hq h
    simp only [profileViewPaged, hq, Option.some_bind] at h
    exact paginateQueryset_length _ _ _ h
  · intro ql hq h
    simp only [profileViewPaged, hq, Option.some_bind]
    exact paginateQueryset_oob _ _ h

/-- Claim C9 witness: the amended claim applied to the 25-post store at
page 4 (out of range: there are 3 pages). -/
theorem C9_pagination_witness :
    homePageView dbPaging 100 4 = none :=
  (C9_pagination dbPaging 100 Viewer.anonymous "w" "c-slug" 4).2.1 (by decide)

/-- Claim C10: a denied comment mutation redirects to the detail page of the
route's `post_id`, whatever the comment's actual parent post is, and the
granted case proceeds without comparing the route's `post_id` with the
comment's `post`. -/
theorem C10_comment_redirect_uses_route_post_id (db : DB) (v : Viewer)
    (c : Comment) (routePostId cid : Nat)
    (hfind : findCommentById db cid = some c) :
    (authorEq v c.author = false →
      commentMutationDispatch db v routePostId cid =
        CommentMutationOutcome.redirectPostDetail routePostId) ∧
    (isAuthenticated v = true → authorEq v c.author = true →
      commentMutationDispatch db v routePostId cid =
        CommentMutationOutcome.proceed c) := by
  cases v with
  | anonymous =>
    constructor
    · intro _
      rfl
    · intro h
      cases h
  | user u =>
    constructor
    · intro h
      simp [commentMutationDispatch, isAuthenticated, hfind, h]
    · intro _ h
      simp [commentMutationDispatch, isAuthenticated, hfind, h]

/-- Claim C10 witness: `userV` (not the comment's author) attacks
`strayComment` (parent post 3) under the unrelated route post id 7 and is
redirected to post 7's detail page. -/
theorem C10_comment_redirect_uses_route_post_id_witness :
    commentMutationDispatch dbStray (Viewer.user userV) 7 40 =
      CommentMutationOutcome.redirectPostDetail 7 :=
  (C10_comment_redirect_uses_route_post_id dbStray (Viewer.user userV)
    strayComment 7 40 rfl).1 rfl

end Blogicum
